import Mathlib

/-!
Verification of the whisper_turboapi server core (src/scripts/main.py).

The development shallowly embeds the module: the readiness gate (the global
`model` together with the `threading.Event` named `model_loaded`), the
background loader `load_model` with its weight-normalization comprehension,
the async wrapper `transcribe_sync`, and the request handler
`transcribe_audio` with its `finally` cleanup block.

Modelling conventions:
- Python exceptions are `Except String`; every fallible external step
  (directory creation, upload read, temp-file creation, temp-file write,
  file removal, model construction, inference) is an oracle supplied in an
  environment record, so each control path of the handler corresponds to a
  choice of oracle outcomes.
- The filesystem is the finite set of existing paths (a `List String`).
- Wall-clock timestamps from `time.time()` are rationals; `round(x, 2)` is
  modelled as `round2` below.
- `mx.array` tensors are shape-indexed functions (`MxArr`); `swapaxes(1, 2)`
  permutes positions 1 and 2 of the shape and of every index.
-/

/-- Python whitespace characters relevant to `str.strip()`. -/
def pyIsSpace (c : Char) : Bool :=
  c = ' ' || c = '\t' || c = '\n' || c = '\r' || c = Char.ofNat 11 || c = Char.ofNat 12

/-- `str.strip()` on a character list: drop whitespace from both ends. -/
def stripChars (l : List Char) : List Char :=
  ((l.dropWhile pyIsSpace).reverse.dropWhile pyIsSpace).reverse

/-- Embedding of Python `str.strip()`. -/
def pyStrip (s : String) : String :=
  ⟨stripChars s.data⟩

/-- Bool test for `pat` occurring as a contiguous substring, as in Python `pat in s`. -/
def hasSubstr (pat : List Char) : List Char → Bool
  | [] => pat.isEmpty
  | c :: rest => pat.isPrefixOf (c :: rest) || hasSubstr pat rest

/-- Embedding of Python `pat in s` for strings. -/
def strContains (s pat : String) : Bool :=
  hasSubstr pat.data s.data

/-- Scanner for `str.replace`: with skip counter 0, test for `pat` at the
current position; on a match emit `repl` and skip the remaining
`pat.length - 1` matched characters; otherwise keep the character and move
on. A positive skip counter consumes one character. Structurally recursive
in the list, so it evaluates by reduction. -/
def replAux (pat repl : List Char) : Nat → List Char → List Char
  | _, [] => []
  | 0, c :: rest =>
    if pat ≠ [] ∧ pat.isPrefixOf (c :: rest) then
      repl ++ replAux pat repl (pat.length - 1) rest
    else
      c :: replAux pat repl 0 rest
  | n + 1, _ :: rest => replAux pat repl n rest

/-- Left-to-right, non-overlapping replacement of every occurrence of `pat`
by `repl`, as performed by Python `str.replace` (for nonempty `pat`). -/
def replaceAll (pat repl : List Char) (l : List Char) : List Char :=
  replAux pat repl 0 l

/-- Embedding of Python `s.replace(pat, repl)`. -/
def strReplace (s pat repl : String) : String :=
  ⟨replaceAll pat.data repl.data s.data⟩

/- ### mx.array model -/

/-- A tensor is a shape together with the value stored at each multi-index. -/
structure MxArr where
  shape : List Nat
  entry : List Nat → Int

/-- `ndim` of an mx.array: the length of its shape. -/
def MxArr.ndim (v : MxArr) : Nat := v.shape.length

/-- Exchange positions 1 and 2 of a list (identity on shorter lists). -/
def swapIdx12 : List Nat → List Nat
  | a :: b :: c :: rest => a :: c :: b :: rest
  | l => l

/-- Embedding of `v.swapaxes(1, 2)`: positions 1 and 2 of the shape and of
every index are exchanged. -/
def MxArr.swapaxes12 (v : MxArr) : MxArr :=
  ⟨swapIdx12 v.shape, fun idx => v.entry (swapIdx12 idx)⟩

/- ### Weight normalization (main.py lines 79-85) -/

/-- The per-entry transformation of the loader's list comprehension:
rename `embed_positions.weight` to `positional_embedding` inside the key,
and swap axes 1 and 2 of the tensor when the key contains `conv` and the
tensor is 3-dimensional. -/
def normalizePair (kv : String × MxArr) : String × MxArr :=
  ( strReplace kv.1 "embed_positions.weight" "positional_embedding",
    if strContains kv.1 "conv" && (kv.2.ndim == 3) then kv.2.swapaxes12 else kv.2 )

/-- The loader's whole normalization step over the weight mapping. -/
def normalize_weights (ws : List (String × MxArr)) : List (String × MxArr) :=
  ws.map normalizePair

/- ### Basic lemmas about the string utilities -/

theorem replaceAll_of_not_hasSubstr (pat repl : List Char) :
    ∀ l : List Char, hasSubstr pat l = false → replaceAll pat repl l = l := by
  intro l
  induction l with
  | nil => intro _; rfl
  | cons c rest ih =>
    intro h
    simp only [hasSubstr, Bool.or_eq_false_iff] at h
    unfold replaceAll replAux
    have hnp : ¬ (pat ≠ [] ∧ pat.isPrefixOf (c :: rest)) := by
      intro hcontr
      rw [hcontr.2] at h
      exact absurd h.1 (by simp)
    rw [if_neg hnp]
    have ih2 := ih h.2
    unfold replaceAll at ih2
    rw [ih2]

theorem strReplace_of_not_contains (s pat repl : String)
    (h : strContains s pat = false) : strReplace s pat repl = s := by
  unfold strReplace
  rw [replaceAll_of_not_hasSubstr pat.data repl.data s.data h]

/- ### The readiness gate (main.py lines 46-48) -/

/-- The opaque inference resource (`Transcriber`): a callable entry point
taking the audio path and the two mode flags `any_lang`, `quick`, returning
the transcribed text or raising. -/
structure Transcriber where
  infer : String → Bool → Bool → Except String String

/-- Embedding of `threading.Event`: a flag that `set` turns on. -/
structure Event where
  isSet : Bool

/-- `Event.set()`: turns the flag on. In CPython this method is total — it
returns `None` and never raises, whether or not the flag was already set. -/
def Event.set (_e : Event) : Event := ⟨true⟩

/-- The pair of module globals `model` (line 47) and `model_loaded`
(line 48) that together form the readiness gate. -/
structure GateState where
  model : Option Transcriber
  model_loaded : Event

/-- Module initialization: `model = None`, `model_loaded = threading.Event()`. -/
def initialGate : GateState := ⟨none, ⟨false⟩⟩

/-- The loader's success-publication step (lines 94-95):
`model = model_instance; model_loaded.set()`. Total, never raises. -/
def publish_success (g : GateState) (m : Transcriber) : GateState :=
  ⟨some m, g.model_loaded.set⟩

/-- The loader's failure-publication step (line 99): `model_loaded.set()`
with `model` left as it was. Total, never raises. -/
def publish_failure (g : GateState) : GateState :=
  ⟨g.model, g.model_loaded.set⟩

/- ### The loader (main.py lines 50-103) -/

/-- An opaque JSON configuration mapping. -/
def Config := List (String × String)

/-- Oracle outcomes for each fallible step of `load_model`: cache-directory
creation, the cache-presence test, the snapshot download and copy, reading
the config, loading the raw weights, and constructing + weight-loading +
evaluating the `Transcriber` (the opaque external part). -/
structure LoadEnv where
  mkdirResult : Except String Unit
  cachedPresent : Bool
  downloadResult : Except String Unit
  configResult : Except String Config
  weightsResult : Except String (List (String × MxArr))
  construct : Config → List (String × MxArr) → Except String Transcriber

/-- The body of the `try` block of `load_model`: each step in source order,
with the weight-normalization comprehension applied between loading the raw
weights and constructing the model. -/
def load_model_steps (env : LoadEnv) : Except String Transcriber := do
  let _ ← env.mkdirResult
  let _ ← if env.cachedPresent then pure () else env.downloadResult
  let cfg ← env.configResult
  let ws ← env.weightsResult
  env.construct cfg (normalize_weights ws)

/-- What `load_model` leaves behind: the gate state, the message passed to
`logger.error` if any, and the exception re-raised by the `except` block.
That re-raised exception propagates only into `threading.Thread.run`, which
reports it and ends the thread; it does not reach the rest of the process. -/
structure LoadOutcome where
  gate : GateState
  loggedError : Option String
  threadExc : Option String

/-- Embedding of `load_model`: on success, `model = model_instance` then
`model_loaded.set()`; on any exception, `logger.error(...)`,
`model_loaded.set()`, then `raise` (confined to the loader thread). -/
def load_model (g : GateState) (env : LoadEnv) : LoadOutcome :=
  match load_model_steps env with
  | .ok m => ⟨⟨some m, g.model_loaded.set⟩, none, none⟩
  | .error e => ⟨⟨g.model, g.model_loaded.set⟩, some ("Failed to load model: " ++ e), some e⟩

/- ### Filesystem model -/

/-- The filesystem is the finite set of existing paths. -/
abbrev Fs := List String

/-- `os.path.exists`. -/
def pathExists (fs : Fs) (p : String) : Bool := fs.contains p

/-- Create a path if absent (`os.makedirs(..., exist_ok=True)`,
`tempfile.NamedTemporaryFile` creation). -/
def addPath (fs : Fs) (p : String) : Fs :=
  if fs.contains p then fs else p :: fs

/-- `os.remove` on success: the path no longer exists. -/
def removePath (fs : Fs) (p : String) : Fs := fs.erase p

/-- The handler's upload directory constant (`BASE_DIR / data / uploads`). -/
def UPLOAD_DIR : String := "data/uploads"

/- ### The request handler (main.py lines 125-184) -/

/-- Oracle outcomes for each fallible step of one `/transcribe` request, in
source order: `os.makedirs`, `file.read()`, `tempfile.NamedTemporaryFile`
creation (yielding the fresh temp path on success), `tmp_file.write`, and
`os.remove` in the `finally` block; plus the two `time.time()` readings
(handler entry, line 142, and post-inference, line 166). -/
structure ReqEnv where
  mkdirsResult : Except String Unit
  readResult : Except String (List Nat)
  tmpCreateResult : Except String String
  tmpWriteResult : Except String Unit
  removeResult : Except String Unit
  tEntry : ℚ
  tEnd : ℚ

/-- The value returned to the HTTP layer: the success JSON body, or the
`HTTPException` status and detail string. -/
inductive Response where
  | ok (text : String) (elapsed_time : ℚ) (quick_mode : Bool) (any_lang : Bool)
  | httpError (status : Nat) (detail : String)
deriving DecidableEq

/-- Embedding of `round(x, 2)` on rational timestamps: round to the nearest
hundredth. -/
def round2 (q : ℚ) : ℚ := ((⌊q * 100 + 1/2⌋ : ℤ) : ℚ) / 100

/-- Embedding of `transcribe_sync` (lines 105-123): offload
`model(path_audio=..., any_lang=..., quick=...).strip()`; the text or the
exception comes back to the awaiting caller. -/
def transcribe_sync (m : Transcriber) (path_audio : String) (quick : Bool) (any_lang : Bool) :
    Except String String :=
  match m.infer path_audio any_lang quick with
  | .ok t => .ok (pyStrip t)
  | .error e => .error e

/-- Everything observable about one handler run: the response, the final
filesystem, whether the gate wait suspended, whether the upload body was
read, whether the temp file was created, whether `os.remove` was called,
and whether a cleanup failure was logged. -/
structure HandlerTrace where
  response : Response
  fs : Fs
  suspendedOnGate : Bool
  bodyRead : Bool
  tmpCreated : Bool
  removeAttempted : Bool
  cleanupErrorLogged : Bool
deriving DecidableEq

/-- The `finally` block (lines 178-184): if the *variable* `tmp_file_path`
is assigned (`tmp_file_path in locals()`) and the path exists, call
`os.remove`; a removal failure is logged and swallowed. Returns the final
filesystem, whether removal was attempted, and whether a cleanup error was
logged. -/
def cleanupFinally (env : ReqEnv) (tmpAssigned : Option String) (fs : Fs) :
    Fs × Bool × Bool :=
  match tmpAssigned with
  | none => (fs, false, false)
  | some p =>
    if pathExists fs p then
      match env.removeResult with
      | .ok _ => (removePath fs p, true, false)
      | .error _ => (fs, true, true)
    else (fs, false, false)

/-- The body of the handler from the `model is None` test onwards:
`modelAfterWait` is the global `model` as read at line 148, after the wait
(if any) returned. Inside the `try`: `os.makedirs(UPLOAD_DIR)`,
`file.read()`, temp-file creation (which puts the file on disk),
`tmp_file.write(content)`, and only then the assignment
`tmp_file_path = tmp_file.name`; then the offloaded inference. Any
exception is answered with the generic 500; the `finally` cleanup runs on
every path. The `suspendedOnGate` field is filled in by
`transcribe_audio`. -/
def transcribe_try (modelAfterWait : Option Transcriber)
    (env : ReqEnv) (fs : Fs) (quick : Bool) (any_lang : Bool) : HandlerTrace :=
  match modelAfterWait with
  | none => ⟨.httpError 500 "Model failed to load.", fs, false, false, false, false, false⟩
  | some m =>
    match env.mkdirsResult with
    | .error _ =>
      let c := cleanupFinally env none fs
      ⟨.httpError 500 "Transcription failed.", c.1, false, false, false, c.2.1, c.2.2⟩
    | .ok _ =>
      let fs1 := addPath fs UPLOAD_DIR
      match env.readResult with
      | .error _ =>
        let c := cleanupFinally env none fs1
        ⟨.httpError 500 "Transcription failed.", c.1, false, false, false, c.2.1, c.2.2⟩
      | .ok _content =>
        match env.tmpCreateResult with
        | .error _ =>
          let c := cleanupFinally env none fs1
          ⟨.httpError 500 "Transcription failed.", c.1, false, true, false, c.2.1, c.2.2⟩
        | .ok p =>
          let fs2 := addPath fs1 p
          match env.tmpWriteResult with
          | .error _ =>
            let c := cleanupFinally env none fs2
            ⟨.httpError 500 "Transcription failed.", c.1, false, true, true, c.2.1, c.2.2⟩
          | .ok _ =>
            match transcribe_sync m p quick any_lang with
            | .error _ =>
              let c := cleanupFinally env (some p) fs2
              ⟨.httpError 500 "Transcription failed.", c.1, false, true, true, c.2.1, c.2.2⟩
            | .ok text =>
              let c := cleanupFinally env (some p) fs2
              ⟨.ok text (round2 (env.tEnd - env.tEntry)) quick any_lang,
                c.1, false, true, true, c.2.1, c.2.2⟩

/-- Embedding of the `/transcribe` handler `transcribe_audio`. `g` is the
gate at entry: line 145 reads `model_loaded.is_set()` and the wait branch
(line 146) is taken — the logical task suspends — exactly when the event
is not yet set; the rest of the handler is `transcribe_try`. -/
def transcribe_audio (g : GateState) (modelAfterWait : Option Transcriber)
    (env : ReqEnv) (fs : Fs) (quick : Bool) (any_lang : Bool) : HandlerTrace :=
  { transcribe_try modelAfterWait env fs quick any_lang with
      suspendedOnGate := !g.model_loaded.isSet }

/- ### Concrete instances used by witnesses and counterexamples -/

/-- A concrete resource whose inference succeeds with padded text. -/
def demoModel : Transcriber := ⟨fun _ _ _ => .ok " hello world "⟩

/-- A 3-dimensional demo tensor. -/
def vDemo3 : MxArr := ⟨[2, 3, 4], fun _ => 0⟩

/-- A 2-dimensional demo tensor. -/
def vDemo2 : MxArr := ⟨[5, 6], fun _ => 1⟩

/-- A request environment in which every step succeeds. -/
def okReqEnv : ReqEnv := ⟨.ok (), .ok [0, 1], .ok "/tmp/upload1.wav", .ok (), .ok (), 0, 2⟩

/-- A request environment whose upload read raises. -/
def readFailEnv : ReqEnv := ⟨.ok (), .error "client disconnected", .ok "/tmp/upload2.wav", .ok (), .ok (), 0, 2⟩

/-- A request environment in which the temp file is created but the write
into it raises (for example the disk fills up mid-write). -/
def leakEnv : ReqEnv := ⟨.ok (), .ok [0, 1], .ok "/tmp/upload3.wav", .error "no space left on device", .ok (), 0, 2⟩

/-- A loader environment whose snapshot download raises. -/
def loadFailEnv : LoadEnv := ⟨.ok (), false, .error "network error", .ok [], .ok [], fun _ _ => .ok demoModel⟩

/- ### Helper lemmas -/

theorem round2_nonneg (q : ℚ) (h : 0 ≤ q) : 0 ≤ round2 q := by
  unfold round2
  have h1 : (0 : ℤ) ≤ ⌊q * 100 + 1 / 2⌋ := by
    apply Int.le_floor.mpr
    have h2 : (0 : ℚ) ≤ q * 100 := mul_nonneg h (by norm_num)
    push_cast
    linarith
  have h3 : (0 : ℚ) ≤ ((⌊q * 100 + 1 / 2⌋ : ℤ) : ℚ) := by exact_mod_cast h1
  have h4 : (0 : ℚ) < 100 := by norm_num
  exact div_nonneg h3 (le_of_lt h4)

theorem round2_mono {q r : ℚ} (h : q ≤ r) : round2 q ≤ round2 r := by
  unfold round2
  have h1 : ⌊q * 100 + 1 / 2⌋ ≤ ⌊r * 100 + 1 / 2⌋ := by
    apply Int.floor_le_floor
    have : q * 100 ≤ r * 100 := by nlinarith
    linarith
  have h2 : ((⌊q * 100 + 1 / 2⌋ : ℤ) : ℚ) ≤ ((⌊r * 100 + 1 / 2⌋ : ℤ) : ℚ) := by exact_mod_cast h1
  gcongr

theorem transcribe_audio_suspended_eq (g : GateState) (mv : Option Transcriber)
    (env : ReqEnv) (fs : Fs) (q a : Bool) :
    (transcribe_audio g mv env fs q a).suspendedOnGate = !g.model_loaded.isSet := by
  rfl

/- ### Claim theorems -/

/-- C1 (evaluation at the failing input): the cleanup invariant fails when
`tmp_file.write` raises after `NamedTemporaryFile` has created the file but
before `tmp_file_path = tmp_file.name` runs. The handler answers the
generic 500, yet the created temp file is still present in the final
filesystem and `os.remove` was never attempted, because the `finally`
guard tests `tmp_file_path in locals()`, which is only assigned after a
successful write. -/
theorem staging_write_failure_leaks_tmp_artifact :
    (transcribe_audio ⟨some demoModel, ⟨true⟩⟩ (some demoModel) leakEnv [] true true).response
      = .httpError 500 "Transcription failed."
    ∧ pathExists (transcribe_audio ⟨some demoModel, ⟨true⟩⟩ (some demoModel) leakEnv [] true true).fs
        "/tmp/upload3.wav" = true
    ∧ (transcribe_audio ⟨some demoModel, ⟨true⟩⟩ (some demoModel) leakEnv [] true true).removeAttempted
      = false
    ∧ (transcribe_audio ⟨some demoModel, ⟨true⟩⟩ (some demoModel) leakEnv [] true true).tmpCreated
      = true :=
  ⟨rfl, rfl, rfl, rfl⟩

/-- C2 (counterexample): a second publication on the readiness gate is not
a detectable error. The code's publish operations are the total functions
`model = ...; model_loaded.set()` and `model_loaded.set()`, and
`threading.Event.set` never raises: publishing failure twice yields exactly
the state of publishing it once, and a repeated success publication
likewise returns normally — the repeat is silently ignored, refuting the
claim at the concrete initial gate. -/
theorem second_publish_silently_ignored_cex :
    publish_failure (publish_failure initialGate) = publish_failure initialGate
    ∧ publish_success (publish_success initialGate demoModel) demoModel
        = publish_success initialGate demoModel :=
  ⟨rfl, rfl⟩

/-- C2 (amended): a second call to `publish_failure` or `publish_success`
on the gate is silently accepted, never detected: repeating
`publish_failure` is a no-op, repeating `publish_success` silently
overwrites the stored handle, and a `publish_failure` after a
`publish_success` leaves the published handle in place; no call signals
any error. -/
theorem second_publish_is_silent_noop (g : GateState) (m m2 : Transcriber) :
    publish_failure (publish_failure g) = publish_failure g
    ∧ publish_success (publish_success g m) m2 = publish_success g m2
    ∧ publish_failure (publish_success g m) = publish_success g m :=
  ⟨rfl, rfl, rfl⟩

/-- C3: when any loader step fails, `load_model` records the failure (the
`logger.error` payload), publishes by setting `model_loaded` while `model`
stays `None`, and the re-raised exception stays confined to the loader
thread (`threadExc`); every waiter that then runs the handler receives one
and the same outcome, the fixed 500 "Model failed to load." response,
regardless of its own request environment, filesystem, or flags. -/
theorem load_failure_published_once_and_uniform (envL : LoadEnv) (e : String)
    (h : load_model_steps envL = .error e) :
    (load_model initialGate envL).gate.model = none
    ∧ (load_model initialGate envL).gate.model_loaded.isSet = true
    ∧ (load_model initialGate envL).loggedError = some ("Failed to load model: " ++ e)
    ∧ (load_model initialGate envL).threadExc = some e
    ∧ ∀ (env1 env2 : ReqEnv) (fs1 fs2 : Fs) (q1 a1 q2 a2 : Bool),
        (transcribe_audio (load_model initialGate envL).gate
            (load_model initialGate envL).gate.model env1 fs1 q1 a1).response
          = .httpError 500 "Model failed to load."
        ∧ (transcribe_audio (load_model initialGate envL).gate
              (load_model initialGate envL).gate.model env1 fs1 q1 a1).response
          = (transcribe_audio (load_model initialGate envL).gate
              (load_model initialGate envL).gate.model env2 fs2 q2 a2).response := by
  have hout : load_model initialGate envL
      = ⟨⟨none, ⟨true⟩⟩, some ("Failed to load model: " ++ e), some e⟩ := by
    unfold load_model
    rw [h]
    rfl
  rw [hout]
  exact ⟨rfl, rfl, rfl, rfl, fun env1 env2 fs1 fs2 q1 a1 q2 a2 => ⟨rfl, rfl⟩⟩

/-- C3 witness: the concrete loader environment whose download raises
leaves the gate set with no model. -/
theorem load_failure_published_once_and_uniform_witness :
    (load_model initialGate loadFailEnv).gate.model = none
    ∧ (load_model initialGate loadFailEnv).gate.model_loaded.isSet = true :=
  ⟨(load_failure_published_once_and_uniform loadFailEnv "network error" rfl).1,
   (load_failure_published_once_and_uniform loadFailEnv "network error" rfl).2.1⟩

/-- C4: a request that reaches the gate after the one-shot transition does
not take the wait branch: when `model_loaded.is_set()` is already true the
handler never suspends on the gate. -/
theorem await_after_transition_no_suspend (g : GateState) (mv : Option Transcriber)
    (env : ReqEnv) (fs : Fs) (q a : Bool) (h : g.model_loaded.isSet = true) :
    (transcribe_audio g mv env fs q a).suspendedOnGate = false := by
  rw [transcribe_audio_suspended_eq, h]
  rfl

/-- C4 witness: a concrete request against an already-set gate does not
suspend. -/
theorem await_after_transition_no_suspend_witness :
    (transcribe_audio ⟨some demoModel, ⟨true⟩⟩ (some demoModel) okReqEnv [] true true).suspendedOnGate
      = false :=
  await_after_transition_no_suspend ⟨some demoModel, ⟨true⟩⟩ (some demoModel) okReqEnv [] true true rfl

/-- C5: after a failed load the gate holds no resource, and every request
is answered with an error status carrying the fixed generic detail
"Model failed to load." — the response is the same constant for every
internal failure `e` and every request environment, so no internal detail
leaks to the caller. -/
theorem unavailable_model_generic_500 (envL : LoadEnv) (e : String)
    (h : load_model_steps envL = .error e) (envR : ReqEnv) (fs : Fs) (q a : Bool) :
    (transcribe_audio (load_model initialGate envL).gate
        (load_model initialGate envL).gate.model envR fs q a).response
      = .httpError 500 "Model failed to load." := by
  have hg : (load_model initialGate envL).gate = ⟨none, ⟨true⟩⟩ := by
    unfold load_model
    rw [h]
    rfl
  rw [hg]
  rfl

/-- C5 witness: concrete failed load followed by a concrete request. -/
theorem unavailable_model_generic_500_witness :
    (transcribe_audio (load_model initialGate loadFailEnv).gate
        (load_model initialGate loadFailEnv).gate.model okReqEnv [] true true).response
      = .httpError 500 "Model failed to load." :=
  unavailable_model_generic_500 loadFailEnv "network error" rfl okReqEnv [] true true

/-- C7: when staging succeeds at path `p` and the resource's inference
entry point, applied to exactly `p` and the caller's exact `any_lang` and
`quick` flags, returns text `t`, the handler's success body carries the
whitespace-trimmed `pyStrip t` together with the same two flag values
unchanged. -/
theorem flags_and_path_passed_through (g : GateState) (m : Transcriber)
    (rmv : Except String Unit) (te tn : ℚ) (fs : Fs) (q a : Bool)
    (content : List Nat) (p t : String)
    (hinf : m.infer p a q = .ok t) :
    (transcribe_audio g (some m) ⟨.ok (), .ok content, .ok p, .ok (), rmv, te, tn⟩ fs q a).response
      = .ok (pyStrip t) (round2 (tn - te)) q a := by
  simp only [transcribe_audio, transcribe_try, transcribe_sync]
  rw [hinf]

/-- C7 witness: scenario with `quick = true`, `any_lang = false`; the flags
appear unchanged in the response and the text is trimmed. -/
theorem flags_and_path_passed_through_witness :
    (transcribe_audio ⟨some demoModel, ⟨true⟩⟩ (some demoModel)
        ⟨.ok (), .ok [0, 1], .ok "/tmp/upload1.wav", .ok (), .ok (), 0, 2⟩ [] true false).response
      = .ok (pyStrip " hello world ") (round2 ((2 : ℚ) - 0)) true false :=
  flags_and_path_passed_through ⟨some demoModel, ⟨true⟩⟩ demoModel (.ok ()) 0 2 [] true false
    [0, 1] "/tmp/upload1.wav" " hello world " rfl

/-- C9: if the request fails while reading the upload body — before the
temp path was assigned — the `finally` block attempts no removal and logs
no cleanup error, the filesystem is exactly as the preceding `os.makedirs`
left it, no temp file was created, and the caller still receives the
generic 500 response. -/
theorem pre_staging_failure_no_cleanup_action (g : GateState) (m : Transcriber)
    (env : ReqEnv) (fs : Fs) (q a : Bool) (e : String)
    (hmk : env.mkdirsResult = .ok ()) (hrd : env.readResult = .error e) :
    (transcribe_audio g (some m) env fs q a).removeAttempted = false
    ∧ (transcribe_audio g (some m) env fs q a).cleanupErrorLogged = false
    ∧ (transcribe_audio g (some m) env fs q a).fs = addPath fs UPLOAD_DIR
    ∧ (transcribe_audio g (some m) env fs q a).tmpCreated = false
    ∧ (transcribe_audio g (some m) env fs q a).response = .httpError 500 "Transcription failed." := by
  obtain ⟨emk, erd, etc2, etw, erm, te, tn⟩ := env
  dsimp only at hmk hrd
  subst hmk
  subst hrd
  exact ⟨rfl, rfl, rfl, rfl, rfl⟩

/-- C9 witness: concrete read failure. -/
theorem pre_staging_failure_no_cleanup_action_witness :
    (transcribe_audio ⟨some demoModel, ⟨true⟩⟩ (some demoModel) readFailEnv [] true true).removeAttempted
      = false
    ∧ (transcribe_audio ⟨some demoModel, ⟨true⟩⟩ (some demoModel) readFailEnv [] true true).response
      = .httpError 500 "Transcription failed." :=
  ⟨(pre_staging_failure_no_cleanup_action ⟨some demoModel, ⟨true⟩⟩ demoModel readFailEnv [] true true
      "client disconnected" rfl rfl).1,
   (pre_staging_failure_no_cleanup_action ⟨some demoModel, ⟨true⟩⟩ demoModel readFailEnv [] true true
      "client disconnected" rfl rfl).2.2.2.2⟩

/-- C10: when the gate has transitioned but the global `model` is `None`,
the handler fails with the fixed 500 before reading the upload body and
before touching the filesystem: the final filesystem equals the initial
one, no body is read, no temp file is created, no removal is attempted. -/
theorem model_none_no_fs_change (g : GateState) (env : ReqEnv) (fs : Fs) (q a : Bool) :
    (transcribe_audio g none env fs q a).response = .httpError 500 "Model failed to load."
    ∧ (transcribe_audio g none env fs q a).fs = fs
    ∧ (transcribe_audio g none env fs q a).bodyRead = false
    ∧ (transcribe_audio g none env fs q a).tmpCreated = false
    ∧ (transcribe_audio g none env fs q a).removeAttempted = false :=
  ⟨rfl, rfl, rfl, rfl, rfl⟩

/-- C6: for a completed request the reported elapsed time equals the
difference of the end timestamp (line 166) and the start timestamp
(line 142) rounded to two decimals; under monotone timestamps it is
non-negative, and because the start reading happens at or before staging
(`tEntry ≤ tStage`) it bounds the staging-to-result interval from above:
the reported value covers the whole interval from staging start to result
availability. -/
theorem elapsed_time_nonneg_and_rounded (g : GateState) (m : Transcriber)
    (env : ReqEnv) (fs : Fs) (q a : Bool) (tStage : ℚ)
    (txt : String) (el : ℚ) (qm al : Bool)
    (h1 : env.tEntry ≤ tStage) (h2 : tStage ≤ env.tEnd)
    (h : (transcribe_audio g (some m) env fs q a).response = .ok txt el qm al) :
    0 ≤ el ∧ el = round2 (env.tEnd - env.tEntry) ∧ round2 (env.tEnd - tStage) ≤ el := by
  obtain ⟨emk, erd, etc2, etw, erm, te, tn⟩ := env
  dsimp only at h1 h2 ⊢
  have hel : el = round2 (tn - te) := by
    cases emk with
    | error e => simp [transcribe_audio, transcribe_try] at h
    | ok u =>
      cases erd with
      | error e => simp [transcribe_audio, transcribe_try] at h
      | ok content =>
        cases etc2 with
        | error e => simp [transcribe_audio, transcribe_try] at h
        | ok p =>
          cases etw with
          | error e => simp [transcribe_audio, transcribe_try] at h
          | ok u2 =>
            cases hminf : m.infer p a q with
            | error e =>
              simp [transcribe_audio, transcribe_try, transcribe_sync, hminf] at h
            | ok t =>
              simp [transcribe_audio, transcribe_try, transcribe_sync, hminf] at h
              exact h.2.1.symm
  refine ⟨?_, hel, ?_⟩
  · rw [hel]
    exact round2_nonneg _ (by linarith)
  · rw [hel]
    exact round2_mono (by linarith)

/-- C6 witness: a concrete completed request with entry time 0, staging
time 1, end time 2 has non-negative reported elapsed time. -/
theorem elapsed_time_nonneg_and_rounded_witness :
    (0 : ℚ) ≤ round2 ((2 : ℚ) - 0) :=
  (elapsed_time_nonneg_and_rounded ⟨some demoModel, ⟨true⟩⟩ demoModel okReqEnv [] true true 1
    (pyStrip " hello world ") (round2 ((2 : ℚ) - 0)) true true (by decide) (by decide) rfl).1

/-- C8: the loader's normalization treats each weight entry as follows —
the tensor is axis-swapped exactly when the key contains `conv` and the
tensor is 3-dimensional and is untouched otherwise; a key that does not
contain `embed_positions.weight` is unchanged, while the
positional-embedding key itself is renamed; and the entrywise rule is what
`normalize_weights` applies to every member of the mapping. -/
theorem weight_normalization_rules (k : String) (v : MxArr) :
    ((strContains k "conv" && (v.ndim == 3)) = true →
        (normalizePair (k, v)).2 = v.swapaxes12)
    ∧ ((strContains k "conv" && (v.ndim == 3)) = false →
        (normalizePair (k, v)).2 = v)
    ∧ (strContains k "embed_positions.weight" = false →
        (normalizePair (k, v)).1 = k)
    ∧ (normalizePair ("encoder.embed_positions.weight", v)).1 = "encoder.positional_embedding"
    ∧ (∀ ws : List (String × MxArr), (k, v) ∈ ws → normalizePair (k, v) ∈ normalize_weights ws) := by
  refine ⟨?_, ?_, ?_, ?_, ?_⟩
  · intro hcond
    simp [normalizePair, hcond]
  · intro hcond
    simp [normalizePair, hcond]
  · intro hnc
    simpa [normalizePair] using strReplace_of_not_contains k "embed_positions.weight" "positional_embedding" hnc
  · rfl
  · intro ws hmem
    exact List.mem_map_of_mem normalizePair hmem

/-- C8 witness: a 3-dimensional `conv` tensor is axis-swapped, a
non-matching entry is untouched. -/
theorem weight_normalization_rules_witness :
    (normalizePair ("conv1.weight", vDemo3)).2 = vDemo3.swapaxes12
    ∧ (normalizePair ("decoder.ln.weight", vDemo2)).2 = vDemo2 :=
  ⟨(weight_normalization_rules "conv1.weight" vDemo3).1 (by decide),
   (weight_normalization_rules "decoder.ln.weight" vDemo2).2.1 (by decide)⟩
